import Mathlib

/-!
Shallow embedding of the rvm bytecode virtual machine (Rust sources under
`src/`): the gas meter (`src/gas.rs`), the storage layer (`src/storage.rs`),
the opcode table (`src/opcodes.rs`), the core interpreter (`src/core.rs`) and
the precompile dispatch (`src/crypto.rs`), together with theorems checking the
specification's claims against these definitions.

Machine integers are modelled as `Nat` with explicit reduction modulo `2^64`
exactly where the Rust `u64`/`usize` arithmetic can wrap (release-profile
semantics: unchecked integer overflow wraps).  Rust `HashMap`s are modelled as
function-valued maps except for `original_storage`, which the code iterates
(`drain`) and is therefore modelled as an association list in insertion order.
-/

namespace Rvm

/-- `2^64`, the modulus of `u64`/`usize` arithmetic. -/
def U64 : Nat := 18446744073709551616

/-- Addresses (`[u8; 20]`) are modelled abstractly as naturals; the all-zero
address `[0u8; 20]` is `0`. -/
abbrev Addr := Nat

/-- The fixed default address `[0u8; 20]` used by `Storage::get` / `Storage::set`. -/
def zeroAddr : Addr := 0

/-- Wrapping `u64` addition (`a + b` in a release build). -/
def wadd (a b : Nat) : Nat := (a + b) % U64

/-- The variants of `RvmError` (src/error.rs) reachable from the modelled
operations. String payloads are kept verbatim. -/
inductive RvmError where
  | StackOverflow
  | StackUnderflow
  | OutOfGas (needed available : Nat)
  | InvalidOpcode (byte : Nat)
  | InvalidBytecode (msg : String)
  | InvalidJump (dest : Nat)
  | InsufficientBalance (available required : Nat)
  | InvalidSignature
  | InvalidPrecompile (address : Nat)
  deriving DecidableEq

/-! ## Gas meter (src/gas.rs) -/

/-- `GasMeter { limit, used, refunded }`. All fields are `u64` values. -/
structure GasMeter where
  limit : Nat
  used : Nat
  refunded : Nat
  deriving DecidableEq

/-- `GasMeter::new(limit)`. -/
def GasMeter.new (limit : Nat) : GasMeter :=
  { limit := limit, used := 0, refunded := 0 }

/-- `GasMeter::consume(amount)`: `if self.used + amount > self.limit` fail with
`OutOfGas { needed: self.used + amount, available: self.limit }`, else
`self.used += amount`.  The `u64` sum wraps on overflow.  The Rust method
mutates `&mut self` and returns `Result<(), RvmError>`; we return the pair. -/
def GasMeter.consume (m : GasMeter) (amount : Nat) : Except RvmError Unit × GasMeter :=
  if wadd m.used amount > m.limit then
    (.error (.OutOfGas (wadd m.used amount) m.limit), m)
  else
    (.ok (), { m with used := wadd m.used amount })

/-- The inner `word_cost` closure of `GasMeter::memory_gas_cost`:
`size_in_words = (size + 31) / 32` (a `usize` sum, wrapping), then
`size_in_words as u64 * 3 + (size_in_words * size_in_words) as u64 / 512`,
each multiplication and the final sum wrapping at `2^64`. -/
def word_cost (size : Nat) : Nat :=
  let size_in_words := ((size + 31) % U64) / 32
  let linear_cost := (size_in_words * 3) % U64
  let quadratic_cost := ((size_in_words * size_in_words) % U64) / 512
  (linear_cost + quadratic_cost) % U64

/-- `GasMeter::memory_gas_cost(current_size, new_size)`: `0` unless the size
grows, else `word_cost(new).saturating_sub(word_cost(current))` (saturating
subtraction is `Nat` subtraction). -/
def GasMeter.memory_gas_cost (current_size new_size : Nat) : Nat :=
  if new_size ≤ current_size then 0
  else word_cost new_size - word_cost current_size

/-- `GasMeter::sstore_gas_cost(current_value, new_value, original_value)`,
returning `(cost, refund)`.  `gas_refund` is a `u64`; the `gas_refund -= 15000`
in the un-clearing case is wrapping `u64` subtraction. -/
def GasMeter.sstore_gas_cost (current_value new_value original_value : Nat) : Nat × Nat :=
  if new_value = current_value then (100, 0)
  else if current_value = original_value then
    if original_value = 0 then (20000, 0) else (5000, 0)
  else
    let gas_cost := 100
    let r0 : Nat := 0
    let r1 := if current_value ≠ 0 ∧ new_value = 0 then wadd r0 15000 else r0
    let r2 :=
      if original_value ≠ 0 then
        let ra := if current_value = 0 then (r1 + (U64 - 15000)) % U64 else r1
        if new_value = 0 then wadd ra 15000 else ra
      else r1
    let r3 :=
      if original_value = new_value then
        if original_value = 0 then wadd r2 19900 else wadd r2 4900
      else r2
    (gas_cost, r3)

/-! ## Storage (src/storage.rs)

`contract_storage: HashMap<[u8; 20], HashMap<u64, u64>>` is modelled as a
function into `Option` of an inner function-valued map, `balances` and
`nonces` as function-valued maps, and `original_storage` — which the code
iterates with `drain` — as an association list in insertion order (most
recent first).  The `contracts` map is omitted: no modelled operation
touches it. -/

/-- Pointwise update of a function-valued map (`HashMap::insert` /
`HashMap::remove` depending on `v`). -/
def updFun {α β : Type} [DecidableEq α] (f : α → Option β) (k : α) (v : Option β) :
    α → Option β :=
  fun k' => if k' = k then v else f k'

structure Storage where
  contractStorage : Addr → Option (Nat → Option Nat)
  balances : Addr → Option Nat
  nonces : Addr → Option Nat
  originalStorage : List ((Addr × Nat) × Nat)

/-- `Storage::new()`. -/
def Storage.new : Storage :=
  { contractStorage := fun _ => none
    balances := fun _ => none
    nonces := fun _ => none
    originalStorage := [] }

/-- `Storage::get_storage(address, key)`:
`contract_storage.get(addr).and_then(|st| st.get(&key)).copied().unwrap_or(0)`. -/
def Storage.get_storage (s : Storage) (address : Addr) (key : Nat) : Nat :=
  match s.contractStorage address with
  | none => 0
  | some st => (st key).getD 0

/-- `Storage::get_raw(address, key)` — same body as `get_storage`. -/
def Storage.get_raw (s : Storage) (address : Addr) (key : Nat) : Nat :=
  match s.contractStorage address with
  | none => 0
  | some st => (st key).getD 0

/-- `original_storage.contains_key(&(address, key))`. -/
def Storage.containsOriginal (s : Storage) (ak : Addr × Nat) : Bool :=
  (s.originalStorage.lookup ak).isSome

/-- The shared write path of `Storage::set_storage` (and `Storage::set`):
capture the current value into `original_storage` on the first write of the
slot, then `contract_storage.entry(address).or_insert_with(HashMap::new)
.insert(key, value)`. -/
def Storage.set_storage (s : Storage) (address : Addr) (key value : Nat) : Storage :=
  let s1 :=
    if s.containsOriginal (address, key) then s
    else { s with originalStorage :=
            ((address, key), s.get_raw address key) :: s.originalStorage }
  let inner :=
    match s1.contractStorage address with
    | none => (fun _ => none : Nat → Option Nat)
    | some st => st
  { s1 with contractStorage :=
      updFun s1.contractStorage address (some (updFun inner key (some value))) }

/-- `Storage::get(key)`: reads under the fixed default address `[0u8; 20]`,
returning `Ok(...)`. -/
def Storage.get (s : Storage) (key : Nat) : Except RvmError Nat :=
  let address := zeroAddr
  .ok (match s.contractStorage address with
       | none => 0
       | some st => (st key).getD 0)

/-- `Storage::set(key, value)`: the same body as `set_storage` with
`address = [0u8; 20]`, returning `Ok(())`. -/
def Storage.set (s : Storage) (key value : Nat) : Except RvmError Unit × Storage :=
  let address := zeroAddr
  let s1 :=
    if s.containsOriginal (address, key) then s
    else { s with originalStorage :=
            ((address, key), s.get_raw address key) :: s.originalStorage }
  let inner :=
    match s1.contractStorage address with
    | none => (fun _ => none : Nat → Option Nat)
    | some st => st
  let s2 :=
    { s1 with contractStorage :=
        updFun s1.contractStorage address (some (updFun inner key (some value))) }
  (.ok (), s2)

/-- `Storage::get_balance(address)`. -/
def Storage.get_balance (s : Storage) (address : Addr) : Nat :=
  (s.balances address).getD 0

/-- `Storage::set_balance(address, balance)`. -/
def Storage.set_balance (s : Storage) (address : Addr) (balance : Nat) : Storage :=
  { s with balances := updFun s.balances address (some balance) }

/-- `Storage::transfer(from, to, amount)`: fail with `InsufficientBalance` when
`balance(from) < amount`; otherwise read `balance(to)` and perform both
`set_balance` updates.  The `u64` sum `to_balance + amount` wraps. -/
def Storage.transfer (s : Storage) (fromAddr toAddr : Addr) (amount : Nat) :
    Except RvmError Unit × Storage :=
  let from_balance := s.get_balance fromAddr
  if from_balance < amount then
    (.error (.InsufficientBalance from_balance amount), s)
  else
    let to_balance := s.get_balance toAddr
    let s1 := s.set_balance fromAddr (from_balance - amount)
    let s2 := s1.set_balance toAddr (wadd to_balance amount)
    (.ok (), s2)

/-- One iteration of the `revert` loop on an `original_storage` entry:
remove the slot when the original value was `0`, else restore it. -/
def revertEntry (cs : Addr → Option (Nat → Option Nat)) (e : (Addr × Nat) × Nat) :
    Addr → Option (Nat → Option Nat) :=
  let address := e.1.1
  let key := e.1.2
  let original_value := e.2
  if original_value = 0 then
    match cs address with
    | none => cs
    | some st => updFun cs address (some (updFun st key none))
  else
    let inner :=
      match cs address with
      | none => (fun _ => none : Nat → Option Nat)
      | some st => st
    updFun cs address (some (updFun inner key (some original_value)))

/-- `Storage::revert()`: drain `original_storage`, restoring or removing each
tracked slot. -/
def Storage.revert (s : Storage) : Storage :=
  { s with contractStorage := s.originalStorage.foldl revertEntry s.contractStorage,
           originalStorage := [] }

/-- `Storage::commit()`: clear original-value tracking. -/
def Storage.commit (s : Storage) : Storage :=
  { s with originalStorage := [] }

/-- Reading one slot of a bare `contract_storage` map (the body of
`get_storage` over the map alone, used to reason about `revert`'s fold). -/
def readCS (cs : Addr → Option (Nat → Option Nat)) (a : Addr) (k : Nat) : Nat :=
  match cs a with
  | none => 0
  | some st => (st k).getD 0

/-- A finite sequence of `set_storage` writes `(address, key, value)`,
applied left to right. -/
def applyWrites (s : Storage) (wlist : List (Addr × Nat × Nat)) : Storage :=
  wlist.foldl (fun t w => t.set_storage w.1 w.2.1 w.2.2) s

/-! ## Opcode table (src/opcodes.rs) -/

/-- The `Opcode` enum (src/opcodes.rs). -/
inductive Opcode where
  | STOP
  | ADD
  | MUL
  | SUB
  | DIV
  | SDIV
  | MOD
  | SMOD
  | ADDMOD
  | MULMOD
  | EXP
  | SIGNEXTEND
  | LT
  | GT
  | SLT
  | SGT
  | EQ
  | ISZERO
  | AND
  | OR
  | XOR
  | NOT
  | BYTE
  | KECCAK256
  | ADDRESS
  | BALANCE
  | ORIGIN
  | CALLER
  | CALLVALUE
  | CALLDATALOAD
  | CALLDATASIZE
  | CALLDATACOPY
  | CODESIZE
  | CODECOPY
  | GASPRICE
  | EXTCODESIZE
  | EXTCODECOPY
  | BLOCKHASH
  | COINBASE
  | TIMESTAMP
  | NUMBER
  | DIFFICULTY
  | GASLIMIT
  | POP
  | MLOAD
  | MSTORE
  | MSTORE8
  | SLOAD
  | SSTORE
  | JUMP
  | JUMPI
  | PC
  | MSIZE
  | GAS
  | JUMPDEST
  | PUSH1
  | PUSH2
  | PUSH3
  | PUSH4
  | PUSH5
  | PUSH6
  | PUSH7
  | PUSH8
  | PUSH9
  | PUSH10
  | PUSH11
  | PUSH12
  | PUSH13
  | PUSH14
  | PUSH15
  | PUSH16
  | PUSH17
  | PUSH18
  | PUSH19
  | PUSH20
  | PUSH21
  | PUSH22
  | PUSH23
  | PUSH24
  | PUSH25
  | PUSH26
  | PUSH27
  | PUSH28
  | PUSH29
  | PUSH30
  | PUSH31
  | PUSH32
  | DUP1
  | DUP2
  | DUP3
  | DUP4
  | DUP5
  | DUP6
  | DUP7
  | DUP8
  | DUP9
  | DUP10
  | DUP11
  | DUP12
  | DUP13
  | DUP14
  | DUP15
  | DUP16
  | SWAP1
  | SWAP2
  | SWAP3
  | SWAP4
  | SWAP5
  | SWAP6
  | SWAP7
  | SWAP8
  | SWAP9
  | SWAP10
  | SWAP11
  | SWAP12
  | SWAP13
  | SWAP14
  | SWAP15
  | SWAP16
  | LOG0
  | LOG1
  | LOG2
  | LOG3
  | LOG4
  | CREATE
  | CALL
  | CALLCODE
  | RETURN
  | DELEGATECALL
  | CREATE2
  | STATICCALL
  | REVERT
  | INVALID
  | SELFDESTRUCT
  | GHOST_ID_VERIFY
  | GHOST_ID_RESOLVE
  | GHOST_ID_CREATE
  | TOKEN_BALANCE
  | TOKEN_TRANSFER
  | TOKEN_MINT
  | TOKEN_BURN
  | CNS_RESOLVE
  | CNS_REGISTER
  | CNS_UPDATE
  | CNS_OWNER
  | L2_SUBMIT
  | L2_BATCH_VERIFY
  | L2_STATE_SYNC
  | BRIDGE_SEND
  | BRIDGE_RECEIVE
  | AGENT_CALL
  | AGENT_DEPLOY
  | AGENT_QUERY
  deriving DecidableEq

/-- `Opcode::from_byte(byte)`: total decode, `InvalidOpcode` on unassigned bytes. -/
def Opcode.from_byte (byte : Nat) : Except RvmError Opcode :=
  match byte with
  | 0x00 => .ok .STOP
  | 0x01 => .ok .ADD
  | 0x02 => .ok .MUL
  | 0x03 => .ok .SUB
  | 0x04 => .ok .DIV
  | 0x05 => .ok .SDIV
  | 0x06 => .ok .MOD
  | 0x07 => .ok .SMOD
  | 0x08 => .ok .ADDMOD
  | 0x09 => .ok .MULMOD
  | 0x0a => .ok .EXP
  | 0x0b => .ok .SIGNEXTEND
  | 0x10 => .ok .LT
  | 0x11 => .ok .GT
  | 0x12 => .ok .SLT
  | 0x13 => .ok .SGT
  | 0x14 => .ok .EQ
  | 0x15 => .ok .ISZERO
  | 0x16 => .ok .AND
  | 0x17 => .ok .OR
  | 0x18 => .ok .XOR
  | 0x19 => .ok .NOT
  | 0x1a => .ok .BYTE
  | 0x20 => .ok .KECCAK256
  | 0x30 => .ok .ADDRESS
  | 0x31 => .ok .BALANCE
  | 0x32 => .ok .ORIGIN
  | 0x33 => .ok .CALLER
  | 0x34 => .ok .CALLVALUE
  | 0x35 => .ok .CALLDATALOAD
  | 0x36 => .ok .CALLDATASIZE
  | 0x37 => .ok .CALLDATACOPY
  | 0x38 => .ok .CODESIZE
  | 0x39 => .ok .CODECOPY
  | 0x3a => .ok .GASPRICE
  | 0x3b => .ok .EXTCODESIZE
  | 0x3c => .ok .EXTCODECOPY
  | 0x40 => .ok .BLOCKHASH
  | 0x41 => .ok .COINBASE
  | 0x42 => .ok .TIMESTAMP
  | 0x43 => .ok .NUMBER
  | 0x44 => .ok .DIFFICULTY
  | 0x45 => .ok .GASLIMIT
  | 0x50 => .ok .POP
  | 0x51 => .ok .MLOAD
  | 0x52 => .ok .MSTORE
  | 0x53 => .ok .MSTORE8
  | 0x54 => .ok .SLOAD
  | 0x55 => .ok .SSTORE
  | 0x56 => .ok .JUMP
  | 0x57 => .ok .JUMPI
  | 0x58 => .ok .PC
  | 0x59 => .ok .MSIZE
  | 0x5a => .ok .GAS
  | 0x5b => .ok .JUMPDEST
  | 0x60 => .ok .PUSH1
  | 0x61 => .ok .PUSH2
  | 0x62 => .ok .PUSH3
  | 0x63 => .ok .PUSH4
  | 0x64 => .ok .PUSH5
  | 0x65 => .ok .PUSH6
  | 0x66 => .ok .PUSH7
  | 0x67 => .ok .PUSH8
  | 0x68 => .ok .PUSH9
  | 0x69 => .ok .PUSH10
  | 0x6a => .ok .PUSH11
  | 0x6b => .ok .PUSH12
  | 0x6c => .ok .PUSH13
  | 0x6d => .ok .PUSH14
  | 0x6e => .ok .PUSH15
  | 0x6f => .ok .PUSH16
  | 0x70 => .ok .PUSH17
  | 0x71 => .ok .PUSH18
  | 0x72 => .ok .PUSH19
  | 0x73 => .ok .PUSH20
  | 0x74 => .ok .PUSH21
  | 0x75 => .ok .PUSH22
  | 0x76 => .ok .PUSH23
  | 0x77 => .ok .PUSH24
  | 0x78 => .ok .PUSH25
  | 0x79 => .ok .PUSH26
  | 0x7a => .ok .PUSH27
  | 0x7b => .ok .PUSH28
  | 0x7c => .ok .PUSH29
  | 0x7d => .ok .PUSH30
  | 0x7e => .ok .PUSH31
  | 0x7f => .ok .PUSH32
  | 0x80 => .ok .DUP1
  | 0x81 => .ok .DUP2
  | 0x82 => .ok .DUP3
  | 0x83 => .ok .DUP4
  | 0x84 => .ok .DUP5
  | 0x85 => .ok .DUP6
  | 0x86 => .ok .DUP7
  | 0x87 => .ok .DUP8
  | 0x88 => .ok .DUP9
  | 0x89 => .ok .DUP10
  | 0x8a => .ok .DUP11
  | 0x8b => .ok .DUP12
  | 0x8c => .ok .DUP13
  | 0x8d => .ok .DUP14
  | 0x8e => .ok .DUP15
  | 0x8f => .ok .DUP16
  | 0x90 => .ok .SWAP1
  | 0x91 => .ok .SWAP2
  | 0x92 => .ok .SWAP3
  | 0x93 => .ok .SWAP4
  | 0x94 => .ok .SWAP5
  | 0x95 => .ok .SWAP6
  | 0x96 => .ok .SWAP7
  | 0x97 => .ok .SWAP8
  | 0x98 => .ok .SWAP9
  | 0x99 => .ok .SWAP10
  | 0x9a => .ok .SWAP11
  | 0x9b => .ok .SWAP12
  | 0x9c => .ok .SWAP13
  | 0x9d => .ok .SWAP14
  | 0x9e => .ok .SWAP15
  | 0x9f => .ok .SWAP16
  | 0xa0 => .ok .LOG0
  | 0xa1 => .ok .LOG1
  | 0xa2 => .ok .LOG2
  | 0xa3 => .ok .LOG3
  | 0xa4 => .ok .LOG4
  | 0xf0 => .ok .CREATE
  | 0xf1 => .ok .CALL
  | 0xf2 => .ok .CALLCODE
  | 0xf3 => .ok .RETURN
  | 0xf4 => .ok .DELEGATECALL
  | 0xf5 => .ok .CREATE2
  | 0xfa => .ok .STATICCALL
  | 0xfd => .ok .REVERT
  | 0xfe => .ok .INVALID
  | 0xff => .ok .SELFDESTRUCT
  | 0xc0 => .ok .GHOST_ID_VERIFY
  | 0xc1 => .ok .GHOST_ID_RESOLVE
  | 0xc2 => .ok .GHOST_ID_CREATE
  | 0xc3 => .ok .TOKEN_BALANCE
  | 0xc4 => .ok .TOKEN_TRANSFER
  | 0xc5 => .ok .TOKEN_MINT
  | 0xc6 => .ok .TOKEN_BURN
  | 0xc7 => .ok .CNS_RESOLVE
  | 0xc8 => .ok .CNS_REGISTER
  | 0xc9 => .ok .CNS_UPDATE
  | 0xca => .ok .CNS_OWNER
  | 0xcb => .ok .L2_SUBMIT
  | 0xcc => .ok .L2_BATCH_VERIFY
  | 0xcd => .ok .L2_STATE_SYNC
  | 0xce => .ok .BRIDGE_SEND
  | 0xcf => .ok .BRIDGE_RECEIVE
  | 0xd0 => .ok .AGENT_CALL
  | 0xd1 => .ok .AGENT_DEPLOY
  | 0xd2 => .ok .AGENT_QUERY
  | _ => .error (.InvalidOpcode byte)

/-- `Opcode::gas_cost()` (src/opcodes.rs). -/
def Opcode.gas_cost : Opcode → Nat
  | .STOP => 0
  | .ADD | .SUB | .LT | .GT | .SLT | .SGT | .EQ | .ISZERO | .AND | .OR | .XOR | .NOT | .BYTE => 3
  | .MUL | .DIV | .SDIV | .MOD | .SMOD | .SIGNEXTEND => 5
  | .ADDMOD | .MULMOD | .JUMP => 8
  | .EXP => 10
  | .JUMPI => 10
  | .KECCAK256 => 30
  | .ADDRESS | .ORIGIN | .CALLER | .CALLVALUE | .CALLDATASIZE | .CODESIZE | .GASPRICE | .COINBASE | .TIMESTAMP | .NUMBER | .DIFFICULTY | .GASLIMIT | .PC | .MSIZE | .GAS => 2
  | .CALLDATALOAD | .CODECOPY | .MLOAD | .MSTORE | .MSTORE8 | .CALLDATACOPY => 3
  | .POP => 2
  | .JUMPDEST => 1
  | .PUSH1 | .PUSH2 | .PUSH3 | .PUSH4 | .PUSH5 | .PUSH6 | .PUSH7 | .PUSH8 | .PUSH9 | .PUSH10 | .PUSH11 | .PUSH12 | .PUSH13 | .PUSH14 | .PUSH15 | .PUSH16 | .PUSH17 | .PUSH18 | .PUSH19 | .PUSH20 | .PUSH21 | .PUSH22 | .PUSH23 | .PUSH24 | .PUSH25 | .PUSH26 | .PUSH27 | .PUSH28 | .PUSH29 | .PUSH30 | .PUSH31 | .PUSH32 => 3
  | .DUP1 | .DUP2 | .DUP3 | .DUP4 | .DUP5 | .DUP6 | .DUP7 | .DUP8 | .DUP9 | .DUP10 | .DUP11 | .DUP12 | .DUP13 | .DUP14 | .DUP15 | .DUP16 => 3
  | .SWAP1 | .SWAP2 | .SWAP3 | .SWAP4 | .SWAP5 | .SWAP6 | .SWAP7 | .SWAP8 | .SWAP9 | .SWAP10 | .SWAP11 | .SWAP12 | .SWAP13 | .SWAP14 | .SWAP15 | .SWAP16 => 3
  | .BALANCE | .EXTCODESIZE | .EXTCODECOPY | .CALL | .CALLCODE | .DELEGATECALL | .STATICCALL => 100
  | .SLOAD => 100
  | .SSTORE => 100
  | .BLOCKHASH => 20
  | .LOG0 => 375
  | .LOG1 => 750
  | .LOG2 => 1125
  | .LOG3 => 1500
  | .LOG4 => 1875
  | .CREATE | .CREATE2 => 32000
  | .SELFDESTRUCT => 5000
  | .RETURN | .REVERT | .INVALID => 0
  | .GHOST_ID_VERIFY => 1000
  | .GHOST_ID_RESOLVE => 500
  | .GHOST_ID_CREATE => 2000
  | .TOKEN_BALANCE | .CNS_OWNER => 100
  | .CNS_RESOLVE => 300
  | .AGENT_QUERY => 1000
  | .L2_SUBMIT => 2000
  | .TOKEN_TRANSFER | .TOKEN_BURN | .CNS_UPDATE | .AGENT_CALL => 5000
  | .TOKEN_MINT | .L2_STATE_SYNC | .BRIDGE_RECEIVE => 10000
  | .CNS_REGISTER | .BRIDGE_SEND => 20000
  | .L2_BATCH_VERIFY | .AGENT_DEPLOY => 50000

/-- `Opcode::is_push()` (src/opcodes.rs). -/
def Opcode.is_push : Opcode → Bool
  | .PUSH1 | .PUSH2 | .PUSH3 | .PUSH4 | .PUSH5 | .PUSH6 | .PUSH7 | .PUSH8 | .PUSH9 | .PUSH10 | .PUSH11 | .PUSH12 | .PUSH13 | .PUSH14 | .PUSH15 | .PUSH16 | .PUSH17 | .PUSH18 | .PUSH19 | .PUSH20 | .PUSH21 | .PUSH22 | .PUSH23 | .PUSH24 | .PUSH25 | .PUSH26 | .PUSH27 | .PUSH28 | .PUSH29 | .PUSH30 | .PUSH31 | .PUSH32 => true
  | _ => false

/-- `Opcode::push_bytes()` (src/opcodes.rs): operand byte count of a PUSH. -/
def Opcode.push_bytes : Opcode → Nat
  | .PUSH1 => 1
  | .PUSH2 => 2
  | .PUSH3 => 3
  | .PUSH4 => 4
  | .PUSH5 => 5
  | .PUSH6 => 6
  | .PUSH7 => 7
  | .PUSH8 => 8
  | .PUSH9 => 9
  | .PUSH10 => 10
  | .PUSH11 => 11
  | .PUSH12 => 12
  | .PUSH13 => 13
  | .PUSH14 => 14
  | .PUSH15 => 15
  | .PUSH16 => 16
  | .PUSH17 => 17
  | .PUSH18 => 18
  | .PUSH19 => 19
  | .PUSH20 => 20
  | .PUSH21 => 21
  | .PUSH22 => 22
  | .PUSH23 => 23
  | .PUSH24 => 24
  | .PUSH25 => 25
  | .PUSH26 => 26
  | .PUSH27 => 27
  | .PUSH28 => 28
  | .PUSH29 => 29
  | .PUSH30 => 30
  | .PUSH31 => 31
  | .PUSH32 => 32
  | _ => 0

/-! ## Core interpreter (src/core.rs)

`RvmCore::execute` mutates `&mut self`; every helper is modelled in explicit
state-passing style, returning partially mutated state together with the
`Result`.  The execution loop is modelled with explicit fuel (one unit per
iteration): `none` means the loop is still running after `fuel` iterations,
so `∀ fuel, execLoop ... = none` is non-termination of the Rust loop. -/

/-- `ExecutionEnvironment` (src/core.rs). -/
structure ExecutionEnvironment where
  contract_address : Addr
  caller : Addr
  value : Nat
  gas_price : Nat
  block_number : Nat
  timestamp : Nat
  deriving DecidableEq

/-- `ExecutionEnvironment::default()`. -/
def ExecutionEnvironment.default : ExecutionEnvironment :=
  { contract_address := zeroAddr, caller := zeroAddr, value := 0
    gas_price := 1, block_number := 1, timestamp := 1640995200 }

/-- `ExecutionResult` (src/core.rs).  The `error` field is the error value
whose rendering the Rust code stores (`Some(e.to_string())`). -/
structure ExecutionResult where
  return_data : List Nat
  gas_used : Nat
  success : Bool
  error : Option RvmError
  deriving DecidableEq

/-- `RvmCore` (src/core.rs): stack of `u64` words (top = list head), program
counter, gas meter, storage, call depth and environment. -/
structure RvmCore where
  stack : List Nat
  pc : Nat
  gas : GasMeter
  storage : Storage
  call_depth : Nat
  env : ExecutionEnvironment

/-- `RvmCore::new(gas_limit)`. -/
def RvmCore.new (gas_limit : Nat) : RvmCore :=
  { stack := [], pc := 0, gas := GasMeter.new gas_limit, storage := Storage.new
    call_depth := 0, env := ExecutionEnvironment.default }

/-- `MAX_STACK_SIZE` (src/lib.rs). -/
def MAX_STACK_SIZE : Nat := 1024

/-- `RvmCore::stack_push(value)`: `StackOverflow` at `MAX_STACK_SIZE`. -/
def RvmCore.stack_push (core : RvmCore) (value : Nat) :
    Except RvmError Unit × RvmCore :=
  if core.stack.length ≥ MAX_STACK_SIZE then (.error .StackOverflow, core)
  else (.ok (), { core with stack := value :: core.stack })

/-- `RvmCore::stack_pop()`: `StackUnderflow` on empty stack. -/
def RvmCore.stack_pop (core : RvmCore) : Except RvmError Nat × RvmCore :=
  match core.stack with
  | [] => (.error .StackUnderflow, core)
  | v :: rest => (.ok v, { core with stack := rest })

/-- `RvmCore::stack_top()` (`last().copied()`, no mutation). -/
def RvmCore.stack_top (core : RvmCore) : Except RvmError Nat :=
  match core.stack with
  | [] => .error .StackUnderflow
  | v :: _ => .ok v

/-- The PUSH32 operand loop: `for i in 1..=8 { if pc + i < len { value =
(value << 8) | byte } }`.  On `u8` operand bytes the shift-or is exactly
`value * 256 + byte` (the shifted value has zero low bits and wraps at
`2^64`). -/
def push32Value (bytecode : List Nat) (pc : Nat) : Nat :=
  (List.range 8).foldl
    (fun value i =>
      if pc + (i + 1) < bytecode.length then
        (value * 256) % U64 + bytecode.getD (pc + (i + 1)) 0
      else value)
    0

/-- The partial PUSH32 operand accumulator after `n` of the 8 loop
iterations (proof device; `push32Value` is the `n = 8` instance). -/
def push32Partial (bytecode : List Nat) (pc n : Nat) : Nat :=
  (List.range n).foldl
    (fun value i =>
      if pc + (i + 1) < bytecode.length then
        (value * 256) % U64 + bytecode.getD (pc + (i + 1)) 0
      else value)
    0

/-- `RvmCore::execute_opcode(opcode, bytecode)`: one dispatch step.  Returns
`Ok(true)` to continue, `Ok(false)` to stop, or an error — always together
with the (possibly partially) mutated core, mirroring `&mut self`. -/
def RvmCore.execute_opcode (core : RvmCore) (opcode : Opcode) (bytecode : List Nat) :
    Except RvmError Bool × RvmCore :=
  match opcode with
  | .PUSH1 =>
    let c := { core with pc := core.pc + 1 }
    if c.pc ≥ bytecode.length then
      (.error (.InvalidBytecode "PUSH1 without data"), c)
    else
      match c.stack_push (bytecode.getD c.pc 0) with
      | (.error e, c1) => (.error e, c1)
      | (.ok _, c1) => (.ok true, { c1 with pc := c1.pc + 1 })
  | .PUSH32 =>
    if core.pc + 32 ≥ bytecode.length then
      (.error (.InvalidBytecode "PUSH32 without enough data"), core)
    else
      match core.stack_push (push32Value bytecode core.pc) with
      | (.error e, c1) => (.error e, c1)
      | (.ok _, c1) => (.ok true, { c1 with pc := c1.pc + 33 })
  | .ADD =>
    match core.stack_pop with
    | (.error e, c1) => (.error e, c1)
    | (.ok b, c1) =>
      match c1.stack_pop with
      | (.error e, c2) => (.error e, c2)
      | (.ok a, c2) =>
        match c2.stack_push (wadd a b) with
        | (.error e, c3) => (.error e, c3)
        | (.ok _, c3) => (.ok true, { c3 with pc := c3.pc + 1 })
  | .SUB =>
    match core.stack_pop with
    | (.error e, c1) => (.error e, c1)
    | (.ok b, c1) =>
      match c1.stack_pop with
      | (.error e, c2) => (.error e, c2)
      | (.ok a, c2) =>
        match c2.stack_push ((a + (U64 - b % U64)) % U64) with
        | (.error e, c3) => (.error e, c3)
        | (.ok _, c3) => (.ok true, { c3 with pc := c3.pc + 1 })
  | .MUL =>
    match core.stack_pop with
    | (.error e, c1) => (.error e, c1)
    | (.ok b, c1) =>
      match c1.stack_pop with
      | (.error e, c2) => (.error e, c2)
      | (.ok a, c2) =>
        match c2.stack_push ((a * b) % U64) with
        | (.error e, c3) => (.error e, c3)
        | (.ok _, c3) => (.ok true, { c3 with pc := c3.pc + 1 })
  | .DIV =>
    match core.stack_pop with
    | (.error e, c1) => (.error e, c1)
    | (.ok b, c1) =>
      match c1.stack_pop with
      | (.error e, c2) => (.error e, c2)
      | (.ok a, c2) =>
        match c2.stack_push (if b = 0 then 0 else a / b) with
        | (.error e, c3) => (.error e, c3)
        | (.ok _, c3) => (.ok true, { c3 with pc := c3.pc + 1 })
  | .DUP1 =>
    match core.stack_top with
    | .error e => (.error e, core)
    | .ok top =>
      match core.stack_push top with
      | (.error e, c1) => (.error e, c1)
      | (.ok _, c1) => (.ok true, { c1 with pc := c1.pc + 1 })
  | .SWAP1 =>
    match core.stack with
    | a :: b :: rest => (.ok true, { core with stack := b :: a :: rest, pc := core.pc + 1 })
    | _ => (.error .StackUnderflow, core)
  | .SSTORE =>
    match core.stack_pop with
    | (.error e, c1) => (.error e, c1)
    | (.ok key, c1) =>
      match c1.stack_pop with
      | (.error e, c2) => (.error e, c2)
      | (.ok value, c2) =>
        match c2.storage.set key value with
        | (.error e, st) => (.error e, { c2 with storage := st })
        | (.ok _, st) => (.ok true, { c2 with storage := st, pc := c2.pc + 1 })
  | .SLOAD =>
    match core.stack_pop with
    | (.error e, c1) => (.error e, c1)
    | (.ok key, c1) =>
      match c1.storage.get key with
      | .error e => (.error e, c1)
      | .ok value =>
        match c1.stack_push value with
        | (.error e, c2) => (.error e, c2)
        | (.ok _, c2) => (.ok true, { c2 with pc := c2.pc + 1 })
  | .JUMP =>
    match core.stack_pop with
    | (.error e, c1) => (.error e, c1)
    | (.ok dest, c1) =>
      if dest ≥ bytecode.length then (.error (.InvalidJump dest), c1)
      else (.ok true, { c1 with pc := dest })
  | .JUMPI =>
    match core.stack_pop with
    | (.error e, c1) => (.error e, c1)
    | (.ok dest, c1) =>
      match c1.stack_pop with
      | (.error e, c2) => (.error e, c2)
      | (.ok condition, c2) =>
        if condition ≠ 0 then
          if dest ≥ bytecode.length then (.error (.InvalidJump dest), c2)
          else (.ok true, { c2 with pc := dest })
        else (.ok true, { c2 with pc := c2.pc + 1 })
  | .STOP => (.ok false, core)
  | .RETURN => (.ok false, core)
  | _ => (.ok true, { core with pc := core.pc + 1 })

/-- The `while self.pc < bytecode.len()` loop of `RvmCore::execute`, with one
unit of fuel per iteration.  Decode errors and `OutOfGas` on the base charge
propagate as `Err` (the `?` operator); dispatch errors are converted into a
failure `ExecutionResult`. -/
def execLoop (bytecode : List Nat) : Nat → RvmCore →
    Option (Except RvmError (ExecutionResult × RvmCore))
  | 0, _ => none
  | fuel + 1, core =>
    if core.pc < bytecode.length then
      match Opcode.from_byte (bytecode.getD core.pc 0) with
      | .error e => some (.error e)
      | .ok opcode =>
        match core.gas.consume opcode.gas_cost with
        | (.error e, _) => some (.error e)
        | (.ok _, gas1) =>
          let core1 := { core with gas := gas1 }
          match core1.execute_opcode opcode bytecode with
          | (.ok true, core2) => execLoop bytecode fuel core2
          | (.ok false, core2) =>
            some (.ok ({ return_data := [], gas_used := core2.gas.used
                         success := true, error := none }, core2))
          | (.error e, core2) =>
            some (.ok ({ return_data := [], gas_used := core2.gas.used
                         success := false, error := some e }, core2))
    else
      some (.ok ({ return_data := [], gas_used := core.gas.used
                   success := true, error := none }, core))

/-- `RvmCore::execute(bytecode, env)`: set the environment, reset `pc` and
stack, then run the loop (with explicit fuel). -/
def RvmCore.execute (core : RvmCore) (bytecode : List Nat)
    (env : ExecutionEnvironment) (fuel : Nat) :
    Option (Except RvmError (ExecutionResult × RvmCore)) :=
  execLoop bytecode fuel { core with env := env, pc := 0, stack := [] }

/-! ## Precompiles (src/crypto.rs)

Byte strings are `List Nat` (each entry a `u8` value).  The cryptographic
primitives — Keccak256, SHA3-256 and the k256 key recovery inside
`RvmCrypto::ecrecover` — are black boxes per the spec; the dispatch logic is
parameterised over them. -/

/-- The black-box cryptographic primitives used by the precompiles:
`RvmCrypto::keccak256`, the `Sha3_256` hasher of `Precompiles::sha256`, and
`RvmCrypto::ecrecover(hash, signature, recovery_id)` (any parse or recovery
failure is an `error`). -/
structure CryptoOracle where
  keccak256 : List Nat → List Nat
  sha3_256 : List Nat → List Nat
  recoverKey : List Nat → List Nat → Nat → Except RvmError (List Nat)

/-- `RvmCrypto::public_key_to_address(pk)`: the low 20 bytes (`hash[12..]`) of
`keccak256(pk)`. -/
def public_key_to_address (o : CryptoOracle) (public_key : List Nat) : List Nat :=
  (o.keccak256 public_key).drop 12

/-- `Precompiles::ecrecover(input)` (address `0x01`): 128-byte input
`hash ‖ v ‖ r ‖ s`; any failure yields `Ok` of 32 zero bytes, success yields a
32-byte vector whose bytes `12..32` hold the recovered address. -/
def Precompiles.ecrecover (o : CryptoOracle) (input : List Nat) :
    Except RvmError (List Nat) :=
  if input.length ≠ 128 then .ok (List.replicate 32 0)
  else
    let hash := input.take 32
    let v := (input.drop 32).take 32
    let r := (input.drop 64).take 32
    let s := (input.drop 96).take 32
    let v31 := v.getD 31 0
    if 27 ≤ v31 ∧ v31 ≤ 28 then
      let recovery_id := v31 - 27
      let signature := r ++ s
      match o.recoverKey hash signature recovery_id with
      | .ok pubkey => .ok (List.replicate 12 0 ++ public_key_to_address o pubkey)
      | .error _ => .ok (List.replicate 32 0)
    else .ok (List.replicate 32 0)

/-- `Precompiles::sha256(input)` (address `0x02`): in the source this hashes
with `Sha3_256` and returns the 32-byte digest. -/
def Precompiles.sha256 (o : CryptoOracle) (input : List Nat) :
    Except RvmError (List Nat) :=
  .ok (o.sha3_256 input)

/-- `Precompiles::ripemd160(input)` (address `0x03`): the first 20 bytes of
the `sha256` digest, right-aligned in 32 zero bytes. -/
def Precompiles.ripemd160 (o : CryptoOracle) (input : List Nat) :
    Except RvmError (List Nat) :=
  match Precompiles.sha256 o input with
  | .error e => .error e
  | .ok sha_hash => .ok (List.replicate 12 0 ++ sha_hash.take 20)

/-- `Precompiles::identity(input)` (address `0x04`). -/
def Precompiles.identity (input : List Nat) : Except RvmError (List Nat) :=
  .ok input

/-- `Precompiles::execute(address, input)`: dispatch to addresses `1..=4`,
otherwise `InvalidPrecompile(address)`. -/
def Precompiles.execute (o : CryptoOracle) (address : Nat) (input : List Nat) :
    Except RvmError (List Nat) :=
  if address = 1 then Precompiles.ecrecover o input
  else if address = 2 then Precompiles.sha256 o input
  else if address = 3 then Precompiles.ripemd160 o input
  else if address = 4 then Precompiles.identity input
  else .error (.InvalidPrecompile address)

/-! ## Concrete instances used by counterexamples and witnesses -/

/-- A gas meter with `limit = used = 2^64 - 1`, reached through the public
API: `GasMeter::new(u64::MAX)` followed by `consume(u64::MAX)`. -/
def maxedMeter : GasMeter := ((GasMeter.new (U64 - 1)).consume (U64 - 1)).2

/-- A storage with slot `(0, 1) = 7` and empty original-value tracking,
reached through the public API via `set_storage` followed by `commit`. -/
def preWriteStorage : Storage := (Storage.new.set_storage 0 1 7).commit

/-- A core about to execute SLOAD of key `1` over `preWriteStorage`, with a
non-zero contract address in the environment. -/
def sloadCore : RvmCore :=
  { RvmCore.new 100 with
    stack := [1], storage := preWriteStorage,
    env := { ExecutionEnvironment.default with contract_address := 9 } }

/-- A core about to execute SSTORE of key `1`, value `42`, with a non-zero
contract address in the environment. -/
def sstoreCore : RvmCore :=
  { RvmCore.new 100 with
    stack := [1, 42],
    env := { ExecutionEnvironment.default with contract_address := 9 } }

/-- The bytecode `60 00 56` — `PUSH1 0; JUMP` — an unconditional loop back
to offset 0. -/
def loopBytecode : List Nat := [96, 0, 86]

/-- The loop state at offset 0 (about to fetch PUSH1) with gas limit
`u64::MAX` and `used = u`. -/
def loopStateA (u : Nat) : RvmCore :=
  { stack := [], pc := 0
    gas := { limit := U64 - 1, used := u, refunded := 0 }
    storage := Storage.new, call_depth := 0
    env := ExecutionEnvironment.default }

/-- The loop state at offset 2 (about to fetch JUMP), `0` on the stack. -/
def loopStateB (u : Nat) : RvmCore :=
  { loopStateA u with stack := [0], pc := 2 }

/-- A trivial crypto oracle: hashes are all-zero 32-byte digests and key
recovery always fails. -/
def zeroOracle : CryptoOracle :=
  { keccak256 := fun _ => List.replicate 32 0
    sha3_256 := fun _ => List.replicate 32 0
    recoverKey := fun _ _ _ => .error .InvalidSignature }

/-! ## Theorems -/

/-- C4 counterexample: on the reachable meter with `limit = used = 2^64 - 1`,
mathematically `used + 1 > limit`, yet `consume(1)` succeeds — the wrapping
`u64` sum `used + 1` is `0` — and `used` drops to `0` instead of staying
unchanged, contradicting the claim's `OutOfGas`/no-op behaviour. -/
theorem consume_overflow_counterexample :
    maxedMeter.used + 1 > maxedMeter.limit ∧
    (maxedMeter.consume 1).1 = .ok () ∧
    (maxedMeter.consume 1).2.used = 0 :=
  ⟨by decide, rfl, by decide⟩

/-- C4 (amended): provided the `u64` sum does not overflow
(`used + n < 2^64`), `GasMeter::consume(n)` fails with
`OutOfGas{needed = used + n, available = limit}` and leaves the meter
unchanged when `used + n > limit`, and otherwise succeeds, increases `used`
by exactly `n` (keeping `limit` fixed) and preserves `used ≤ limit`. -/
theorem consume_spec (m : GasMeter) (n : Nat) (h : m.used + n < U64) :
    (m.used + n > m.limit →
      (m.consume n).1 = .error (.OutOfGas (m.used + n) m.limit) ∧
      (m.consume n).2 = m) ∧
    (m.used + n ≤ m.limit →
      (m.consume n).1 = .ok () ∧
      (m.consume n).2.used = m.used + n ∧
      (m.consume n).2.limit = m.limit ∧
      (m.consume n).2.used ≤ m.limit) := by
  have hmod : wadd m.used n = m.used + n := Nat.mod_eq_of_lt h
  constructor
  · intro hgt
    have hcons : m.consume n = (.error (.OutOfGas (m.used + n) m.limit), m) := by
      unfold GasMeter.consume
      rw [hmod, if_pos hgt]
    exact ⟨by rw [hcons], by rw [hcons]⟩
  · intro hle
    have hcons : m.consume n = (.ok (), { m with used := m.used + n }) := by
      unfold GasMeter.consume
      rw [hmod, if_neg (by omega)]
    refine ⟨by rw [hcons], by rw [hcons], by rw [hcons], ?_⟩
    rw [hcons]
    exact hle

/-- C4 witness: `consume_spec` applied to `GasMeter::new(10)` and `n = 3`. -/
theorem consume_spec_witness :
    ((GasMeter.new 10).consume 3).1 = .ok () ∧
    ((GasMeter.new 10).consume 3).2.used = 3 := by
  have h := (consume_spec (GasMeter.new 10) 3 (by decide)).2 (by decide)
  exact ⟨h.1, h.2.1⟩

/-- C7 counterexample: clearing a modified nonzero slot with nonzero original
(`current = 1`, `new = 0`, `original = 2`) refunds `30000` — the code credits
the `SSTORE_CLEARS_SCHEDULE` of 15000 twice — not the claimed `15000`. -/
theorem sstore_gas_cost_counterexample :
    GasMeter.sstore_gas_cost 1 0 2 = (100, 30000) ∧
    GasMeter.sstore_gas_cost 1 0 2 ≠ (100, 15000) := by
  refine ⟨?_, ?_⟩ <;> decide

/-- C7 (amended): for `new ≠ current` and `current ≠ original` the cost is
`100` and the `u64` refund is: on clearing (`new = 0`, hence `current ≠ 0`)
`30000` when `original ≠ 0` (the 15000 clearing credit is added twice) and
`34900` when `original = 0` (15000 plus the 19900 restoration credit); on
un-clearing (`current = 0`, hence `original ≠ 0` and `new ≠ 0`) the wrapped
`2^64 - 10100` when `new = original` else `2^64 - 15000` (the `u64`
subtraction of 15000 from 0 wraps); otherwise `4900` when `new = original`
else `0`. -/
theorem sstore_gas_cost_spec (current_value new_value original_value : Nat)
    (hnc : new_value ≠ current_value) (hco : current_value ≠ original_value) :
    GasMeter.sstore_gas_cost current_value new_value original_value =
      (100,
        if new_value = 0 then
          (if original_value = 0 then 34900 else 30000)
        else if current_value = 0 then
          (if new_value = original_value then U64 - 10100 else U64 - 15000)
        else if new_value = original_value then 4900 else 0) := by
  unfold GasMeter.sstore_gas_cost
  rw [if_neg hnc, if_neg hco]
  by_cases hn : new_value = 0
  · subst hn
    have hc : current_value ≠ 0 := fun h => hnc h.symm
    by_cases ho : original_value = 0
    · subst ho
      simp [hc]
      all_goals decide
    · simp [hc, ho, Ne.symm ho]
      all_goals decide
  · by_cases hc : current_value = 0
    · subst hc
      have ho : original_value ≠ 0 := Ne.symm hco
      by_cases hno : original_value = new_value
      · subst hno
        simp [hn, ho]
        all_goals decide
      · simp [hn, ho, hno, show new_value ≠ original_value from fun h => hno h.symm]
    · by_cases hno : original_value = new_value
      · subst hno
        simp [hn, hc]
        all_goals decide
      · by_cases ho : original_value = 0
        · subst ho
          simp [hn, hc, hno, show new_value ≠ 0 from hn]
        · simp [hn, hc, hno, ho, show new_value ≠ original_value from fun h => hno h.symm]

/-- C7 witness: `sstore_gas_cost_spec` at `(1, 0, 2)` gives `(100, 30000)`. -/
theorem sstore_gas_cost_spec_witness :
    GasMeter.sstore_gas_cost 1 0 2 = (100, 30000) := by
  have h := sstore_gas_cost_spec 1 0 2 (by decide) (by decide)
  simpa using h

/-- C8 counterexample: at sizes near `2^37` the `usize` square
`size_in_words * size_in_words` wraps at `2^64`, the inner `word_cost` stops
being monotone, the `saturating_sub` truncates, and telescoping fails:
`memory_gas_cost(2^37-32, 2^37) + memory_gas_cost(2^37, 2^37+32) = 16777219`
while `memory_gas_cost(2^37-32, 2^37+32) = 0`. -/
theorem memory_gas_cost_telescoping_counterexample :
    GasMeter.memory_gas_cost 137438953440 137438953472 +
      GasMeter.memory_gas_cost 137438953472 137438953504 = 16777219 ∧
    GasMeter.memory_gas_cost 137438953440 137438953504 = 0 ∧
    ¬(GasMeter.memory_gas_cost 137438953440 137438953472 +
        GasMeter.memory_gas_cost 137438953472 137438953504 =
      GasMeter.memory_gas_cost 137438953440 137438953504) := by
  refine ⟨by decide, by decide, by decide⟩

/-- `word_cost` computes without wrapping below `2^37`: for `s + 31 < 2^37`
it is exactly `3·w + w²/512` with `w = (s + 31) / 32`. -/
theorem word_cost_eq_of_lt (s : Nat) (hs : s + 31 < 137438953472) :
    word_cost s = (s + 31) / 32 * 3 + (s + 31) / 32 * ((s + 31) / 32) / 512 := by
  have hU : (137438953472 : Nat) < U64 := by decide
  have h1 : (s + 31) % U64 = s + 31 := Nat.mod_eq_of_lt (lt_trans hs hU)
  have hw : (s + 31) / 32 ≤ 4294967295 := by
    have h32 : (s + 31) / 32 < 4294967296 :=
      Nat.div_lt_of_lt_mul (by omega)
    omega
  have h2 : (s + 31) / 32 * 3 < U64 :=
    lt_of_le_of_lt (Nat.mul_le_mul_right 3 hw) (by decide)
  have h3 : (s + 31) / 32 * ((s + 31) / 32) < U64 :=
    lt_of_le_of_lt (Nat.mul_le_mul hw hw) (by decide)
  have h4 : (s + 31) / 32 * 3 + (s + 31) / 32 * ((s + 31) / 32) / 512 < U64 :=
    lt_of_le_of_lt
      (Nat.add_le_add (Nat.mul_le_mul_right 3 hw)
        (Nat.div_le_div_right (Nat.mul_le_mul hw hw)))
      (by decide)
  simp only [word_cost]
  rw [h1, Nat.mod_eq_of_lt h2, Nat.mod_eq_of_lt h3, Nat.mod_eq_of_lt h4]

/-- `word_cost` is monotone below `2^37`. -/
theorem word_cost_mono (s t : Nat) (hst : s ≤ t) (ht : t + 31 < 137438953472) :
    word_cost s ≤ word_cost t := by
  have hs : s + 31 < 137438953472 := lt_of_le_of_lt (by omega) ht
  rw [word_cost_eq_of_lt s hs, word_cost_eq_of_lt t ht]
  have hw : (s + 31) / 32 ≤ (t + 31) / 32 := Nat.div_le_div_right (by omega)
  exact Nat.add_le_add (Nat.mul_le_mul_right 3 hw)
    (Nat.div_le_div_right (Nat.mul_le_mul hw hw))

/-- C8 (amended): `memory_gas_cost` is `0` whenever the size does not grow,
and it telescopes — `memory_gas_cost(a,b) + memory_gas_cost(b,c) =
memory_gas_cost(a,c)` for `a ≤ b ≤ c` — provided `c + 31 < 2^37`, the regime
in which the `usize`/`u64` products in `word_cost` cannot wrap (beyond it the
identity fails, see the counterexample). -/
theorem memory_gas_cost_spec :
    (∀ cur new, new ≤ cur → GasMeter.memory_gas_cost cur new = 0) ∧
    (∀ a b c, a ≤ b → b ≤ c → c + 31 < 137438953472 →
      GasMeter.memory_gas_cost a b + GasMeter.memory_gas_cost b c =
        GasMeter.memory_gas_cost a c) := by
  constructor
  · intro cur new h
    unfold GasMeter.memory_gas_cost
    rw [if_pos h]
  · intro a b c hab hbc hc
    rcases Nat.eq_or_lt_of_le hab with rfl | hab'
    · unfold GasMeter.memory_gas_cost
      rw [if_pos (le_refl a), Nat.zero_add]
    · rcases Nat.eq_or_lt_of_le hbc with rfl | hbc'
      · unfold GasMeter.memory_gas_cost
        rw [if_pos (le_refl b), Nat.add_zero]
      · have hac : a < c := lt_trans hab' hbc'
        have h1 : word_cost a ≤ word_cost b :=
          word_cost_mono a b hab (by omega)
        have h2 : word_cost b ≤ word_cost c := word_cost_mono b c hbc hc
        unfold GasMeter.memory_gas_cost
        rw [if_neg (by omega), if_neg (by omega), if_neg (by omega)]
        omega

/-- C8 witness: `memory_gas_cost_spec` at `64 ≥ 32` and `0 ≤ 32 ≤ 64`. -/
theorem memory_gas_cost_spec_witness :
    GasMeter.memory_gas_cost 64 32 = 0 ∧
    GasMeter.memory_gas_cost 0 32 + GasMeter.memory_gas_cost 32 64 =
      GasMeter.memory_gas_cost 0 64 :=
  ⟨memory_gas_cost_spec.1 64 32 (by decide),
   memory_gas_cost_spec.2 0 32 64 (by decide) (by decide) (by decide)⟩

/-- Reading a balance after `set_balance`: the written address holds the new
balance, every other address is untouched. -/
theorem get_balance_set_balance (s : Storage) (a : Addr) (b : Nat) (x : Addr) :
    (s.set_balance a b).get_balance x = if x = a then b else s.get_balance x := by
  unfold Storage.set_balance Storage.get_balance updFun
  by_cases h : x = a <;> simp [h]

/-- C5 counterexample: a self-transfer creates money.  With `balance(A) = 100`,
`transfer(A, A, 50)` succeeds and leaves `balance(A) = 150` — the to-balance
is read before the from-update and the second `set_balance` overwrites the
first — instead of the claimed `100 - 50`; the sum of balances grows. -/
theorem transfer_self_counterexample :
    ((Storage.new.set_balance 0 100).transfer 0 0 50).1 = .ok () ∧
    ((Storage.new.set_balance 0 100).transfer 0 0 50).2.get_balance 0 = 150 ∧
    ¬(((Storage.new.set_balance 0 100).transfer 0 0 50).2.get_balance 0 = 100 - 50) :=
  ⟨rfl, rfl, by decide⟩

/-- C5 (amended): for distinct `from ≠ to` and no `u64` overflow of
`balance(to) + amount`, `Storage::transfer` fails with
`InsufficientBalance{available = balance(from), required = amount}` leaving
the storage unchanged when `balance(from) < amount`, and otherwise succeeds:
`balance(from)` decreases by `amount`, `balance(to)` increases by `amount`,
every other balance is untouched, and the sum of the two balances — hence of
all balances — is preserved.  (For `from = to` the claim fails, see the
counterexample.) -/
theorem transfer_spec (s : Storage) (fromAddr toAddr : Addr) (amount : Nat)
    (hne : fromAddr ≠ toAddr)
    (hov : s.get_balance toAddr + amount < U64) :
    (s.get_balance fromAddr < amount →
      (s.transfer fromAddr toAddr amount).1 =
        .error (.InsufficientBalance (s.get_balance fromAddr) amount) ∧
      (s.transfer fromAddr toAddr amount).2 = s) ∧
    (amount ≤ s.get_balance fromAddr →
      (s.transfer fromAddr toAddr amount).1 = .ok () ∧
      (s.transfer fromAddr toAddr amount).2.get_balance fromAddr =
        s.get_balance fromAddr - amount ∧
      (s.transfer fromAddr toAddr amount).2.get_balance toAddr =
        s.get_balance toAddr + amount ∧
      (∀ x, x ≠ fromAddr → x ≠ toAddr →
        (s.transfer fromAddr toAddr amount).2.get_balance x = s.get_balance x) ∧
      (s.transfer fromAddr toAddr amount).2.get_balance fromAddr +
          (s.transfer fromAddr toAddr amount).2.get_balance toAddr =
        s.get_balance fromAddr + s.get_balance toAddr) := by
  constructor
  · intro hlt
    have heq : s.transfer fromAddr toAddr amount =
        (.error (.InsufficientBalance (s.get_balance fromAddr) amount), s) := by
      unfold Storage.transfer
      rw [if_pos hlt]
    exact ⟨by rw [heq], by rw [heq]⟩
  · intro hge
    have heq : s.transfer fromAddr toAddr amount =
        (.ok (), (s.set_balance fromAddr (s.get_balance fromAddr - amount)).set_balance
          toAddr (wadd (s.get_balance toAddr) amount)) := by
      unfold Storage.transfer
      rw [if_neg (Nat.not_lt.mpr hge)]
    have hw : wadd (s.get_balance toAddr) amount = s.get_balance toAddr + amount :=
      Nat.mod_eq_of_lt hov
    refine ⟨by rw [heq], ?_, ?_, ?_, ?_⟩
    · rw [heq]
      rw [get_balance_set_balance, if_neg hne, get_balance_set_balance, if_pos rfl]
    · rw [heq]
      rw [get_balance_set_balance, if_pos rfl, hw]
    · intro x hxf hxt
      rw [heq]
      rw [get_balance_set_balance, if_neg hxt, get_balance_set_balance, if_neg hxf]
    · rw [heq]
      rw [get_balance_set_balance, if_neg hne, get_balance_set_balance, if_pos rfl,
        get_balance_set_balance, if_pos rfl, hw]
      omega

/-- C5 witness: `transfer_spec` on balances `A = 1000`, `B = 500` with a
`300` transfer, as in the spec's balance-transfer scenario. -/
theorem transfer_spec_witness :
    (((Storage.new.set_balance 1 1000).set_balance 2 500).transfer 1 2 300).1 = .ok () ∧
    (((Storage.new.set_balance 1 1000).set_balance 2 500).transfer 1 2 300).2.get_balance 1 = 700 ∧
    (((Storage.new.set_balance 1 1000).set_balance 2 500).transfer 1 2 300).2.get_balance 2 = 800 := by
  have h := (transfer_spec ((Storage.new.set_balance 1 1000).set_balance 2 500)
    1 2 300 (by decide) (by decide)).2 (by decide)
  exact ⟨h.1, by rw [h.2.1]; decide, by rw [h.2.2.1]; decide⟩

/-! ### Storage revert (C6) -/

/-- `get_storage` is `readCS` on the `contract_storage` map. -/
theorem get_storage_readCS (s : Storage) (a : Addr) (k : Nat) :
    s.get_storage a k = readCS s.contractStorage a k := rfl

/-- `get_raw` has the same body as `get_storage`. -/
theorem get_raw_eq_get_storage (s : Storage) (a : Addr) (k : Nat) :
    s.get_raw a k = s.get_storage a k := rfl

/-- A lookup misses exactly when the key is absent. -/
theorem lookup_eq_none_iff (l : List ((Addr × Nat) × Nat)) (x : Addr × Nat) :
    l.lookup x = none ↔ x ∉ l.map Prod.fst := by
  induction l with
  | nil => simp [List.lookup]
  | cons e l ih =>
    obtain ⟨xk, ov⟩ := e
    by_cases h : x = xk
    · subst h
      simp [List.lookup]
    · simp [List.lookup, beq_eq_false_iff_ne.mpr h, ih, h]

/-- Reading after a pointwise map update. -/
theorem readCS_updFun (cs : Addr → Option (Nat → Option Nat)) (ea : Addr)
    (m : Nat → Option Nat) (a : Addr) (k : Nat) :
    readCS (updFun cs ea (some m)) a k =
      if a = ea then (m k).getD 0 else readCS cs a k := by
  unfold readCS updFun
  by_cases h : a = ea <;> simp [h]

/-- The `or_insert_with(HashMap::new)` inner map reads like the original slot. -/
theorem readCS_inner (cs : Addr → Option (Nat → Option Nat)) (a : Addr) (k : Nat) :
    ((match cs a with
      | none => (fun _ => none : Nat → Option Nat)
      | some st => st) k).getD 0 = readCS cs a k := by
  cases h : cs a <;> simp [readCS, h]

/-- `revertEntry` makes its own slot read the tracked original value: a
removed slot (original `0`) reads `0`, a restored slot reads the original. -/
theorem readCS_revertEntry_self (cs : Addr → Option (Nat → Option Nat))
    (ea : Addr) (ek ov : Nat) :
    readCS (revertEntry cs ((ea, ek), ov)) ea ek = ov := by
  simp only [revertEntry]
  by_cases hov : ov = 0
  · subst hov
    rw [if_pos rfl]
    cases hcs : cs ea with
    | none => simp [readCS, hcs]
    | some st =>
      rw [readCS_updFun, if_pos rfl]
      simp [updFun]
  · rw [if_neg hov]
    rw [readCS_updFun, if_pos rfl]
    simp [updFun]

/-- `revertEntry` does not touch other slots. -/
theorem readCS_revertEntry_ne (cs : Addr → Option (Nat → Option Nat))
    (ea : Addr) (ek ov : Nat) (a : Addr) (k : Nat) (h : (a, k) ≠ (ea, ek)) :
    readCS (revertEntry cs ((ea, ek), ov)) a k = readCS cs a k := by
  simp only [revertEntry]
  by_cases hov : ov = 0
  · subst hov
    rw [if_pos rfl]
    cases hcs : cs ea with
    | none => rfl
    | some st =>
      rw [readCS_updFun]
      by_cases ha : a = ea
      · subst ha
        have hk : k ≠ ek := fun hkk => h (by rw [hkk])
        simp [updFun, hk, readCS, hcs]
      · rw [if_neg ha]
  · rw [if_neg hov]
    rw [readCS_updFun]
    by_cases ha : a = ea
    · subst ha
      have hk : k ≠ ek := fun hkk => h (by rw [hkk])
      rw [if_pos rfl]
      simp only [updFun, if_neg hk]
      cases hcs : cs a <;> simp [readCS, hcs]
    · rw [if_neg ha]

/-- Closed form of the `revert` fold: a tracked slot reads its original
value, an untracked slot is unchanged. -/
theorem readCS_revert_fold (l : List ((Addr × Nat) × Nat)) :
    ∀ (cs : Addr → Option (Nat → Option Nat)) (a : Addr) (k : Nat),
      (l.map Prod.fst).Nodup →
      readCS (l.foldl revertEntry cs) a k =
        (l.lookup (a, k)).getD (readCS cs a k) := by
  induction l with
  | nil => intro cs a k _; rfl
  | cons e l ih =>
    intro cs a k hnd
    obtain ⟨⟨ea, ek⟩, ov⟩ := e
    rw [List.map_cons, List.nodup_cons] at hnd
    obtain ⟨hnotmem, hnd'⟩ := hnd
    show readCS (l.foldl revertEntry (revertEntry cs ((ea, ek), ov))) a k = _
    rw [ih (revertEntry cs ((ea, ek), ov)) a k hnd']
    by_cases h : (a, k) = (ea, ek)
    · have ha : a = ea := congrArg Prod.fst h
      have hk : k = ek := congrArg Prod.snd h
      subst ha
      subst hk
      have hl : l.lookup (a, k) = none :=
        (lookup_eq_none_iff l (a, k)).mpr hnotmem
      simp only [hl, Option.getD_none, List.lookup, beq_self_eq_true,
        Option.getD_some]
      exact readCS_revertEntry_self cs a k ov
    · simp only [List.lookup, beq_eq_false_iff_ne.mpr h]
      cases hll : l.lookup (a, k) with
      | some o => simp [hll]
      | none =>
        simp only [hll, Option.getD_none]
        exact readCS_revertEntry_ne cs ea ek ov a k h

/-- The `contract_storage` map after `set_storage`. -/
theorem set_storage_contractStorage (s : Storage) (a : Addr) (k v : Nat) :
    (s.set_storage a k v).contractStorage =
      updFun s.contractStorage a
        (some (updFun (match s.contractStorage a with
                       | none => (fun _ => none : Nat → Option Nat)
                       | some st => st) k (some v))) := by
  simp only [Storage.set_storage]
  by_cases ht : s.containsOriginal (a, k) <;> simp [ht]

/-- The `original_storage` list after `set_storage`: the current value is
captured on the first write of the slot, later writes change nothing. -/
theorem set_storage_originalStorage (s : Storage) (a : Addr) (k v : Nat) :
    (s.set_storage a k v).originalStorage =
      if s.containsOriginal (a, k) then s.originalStorage
      else ((a, k), s.get_raw a k) :: s.originalStorage := by
  simp only [Storage.set_storage]
  by_cases ht : s.containsOriginal (a, k) <;> simp [ht]

/-- Reading after `set_storage`: the written slot holds the new value, every
other slot is untouched. -/
theorem get_storage_set_storage (s : Storage) (a : Addr) (k v : Nat)
    (a' : Addr) (k' : Nat) :
    (s.set_storage a k v).get_storage a' k' =
      if a' = a ∧ k' = k then v else s.get_storage a' k' := by
  rw [get_storage_readCS, set_storage_contractStorage, readCS_updFun]
  by_cases ha : a' = a
  · subst ha
    by_cases hk : k' = k
    · subst hk
      simp [updFun]
    · simp only [if_pos rfl, updFun, if_neg hk, hk, and_false, if_false]
      rw [get_storage_readCS]
      exact readCS_inner s.contractStorage a' k'
  · simp [ha, get_storage_readCS]

/-- One `set_storage` write preserves the original-value tracking invariant
with respect to a fixed pre-state `s`: tracked slots hold the pre-state
value, untracked slots read as in the pre-state, and the tracked keys stay
distinct. -/
theorem set_storage_preserves_tracking (s t : Storage) (a : Addr) (k v : Nat)
    (h1 : ∀ a' k' o, t.originalStorage.lookup (a', k') = some o →
      s.get_storage a' k' = o)
    (h2 : ∀ a' k', t.originalStorage.lookup (a', k') = none →
      t.get_storage a' k' = s.get_storage a' k')
    (h3 : (t.originalStorage.map Prod.fst).Nodup) :
    (∀ a' k' o, (t.set_storage a k v).originalStorage.lookup (a', k') = some o →
      s.get_storage a' k' = o) ∧
    (∀ a' k', (t.set_storage a k v).originalStorage.lookup (a', k') = none →
      (t.set_storage a k v).get_storage a' k' = s.get_storage a' k') ∧
    ((t.set_storage a k v).originalStorage.map Prod.fst).Nodup := by
  by_cases ht : t.containsOriginal (a, k)
  · refine ⟨?_, ?_, ?_⟩
    · intro a' k' o hlk
      rw [set_storage_originalStorage, if_pos ht] at hlk
      exact h1 a' k' o hlk
    · intro a' k' hlk
      rw [set_storage_originalStorage, if_pos ht] at hlk
      have hne : ¬(a' = a ∧ k' = k) := by
        rintro ⟨rfl, rfl⟩
        unfold Storage.containsOriginal at ht
        rw [hlk] at ht
        simp at ht
      rw [get_storage_set_storage, if_neg hne]
      exact h2 a' k' hlk
    · rw [set_storage_originalStorage, if_pos ht]
      exact h3
  · have hln : t.originalStorage.lookup (a, k) = none := by
      unfold Storage.containsOriginal at ht
      exact Option.not_isSome_iff_eq_none.mp ht
    refine ⟨?_, ?_, ?_⟩
    · intro a' k' o hlk
      rw [set_storage_originalStorage, if_neg ht] at hlk
      by_cases h : (a', k') = (a, k)
      · have ha : a' = a := congrArg Prod.fst h
        have hk : k' = k := congrArg Prod.snd h
        subst ha
        subst hk
        simp only [List.lookup, beq_self_eq_true] at hlk
        have hvo : t.get_raw a' k' = o := by
          simpa using hlk
        rw [← hvo, get_raw_eq_get_storage]
        exact (h2 a' k' hln).symm
      · simp only [List.lookup, beq_eq_false_iff_ne.mpr h] at hlk
        exact h1 a' k' o hlk
    · intro a' k' hlk
      rw [set_storage_originalStorage, if_neg ht] at hlk
      by_cases h : (a', k') = (a, k)
      · rw [h] at hlk
        simp [List.lookup] at hlk
      · simp only [List.lookup, beq_eq_false_iff_ne.mpr h] at hlk
        have hne : ¬(a' = a ∧ k' = k) := by
          rintro ⟨rfl, rfl⟩
          exact h rfl
        rw [get_storage_set_storage, if_neg hne]
        exact h2 a' k' hlk
    · rw [set_storage_originalStorage, if_neg ht]
      rw [List.map_cons, List.nodup_cons]
      exact ⟨(lookup_eq_none_iff t.originalStorage (a, k)).mp hln, h3⟩

/-- The tracking invariant is preserved along any sequence of writes. -/
theorem applyWrites_tracking (s : Storage) (wlist : List (Addr × Nat × Nat)) :
    ∀ t : Storage,
      (∀ a' k' o, t.originalStorage.lookup (a', k') = some o →
        s.get_storage a' k' = o) →
      (∀ a' k', t.originalStorage.lookup (a', k') = none →
        t.get_storage a' k' = s.get_storage a' k') →
      (t.originalStorage.map Prod.fst).Nodup →
      (∀ a' k' o, (applyWrites t wlist).originalStorage.lookup (a', k') = some o →
        s.get_storage a' k' = o) ∧
      (∀ a' k', (applyWrites t wlist).originalStorage.lookup (a', k') = none →
        (applyWrites t wlist).get_storage a' k' = s.get_storage a' k') ∧
      ((applyWrites t wlist).originalStorage.map Prod.fst).Nodup := by
  induction wlist with
  | nil => intro t h1 h2 h3; exact ⟨h1, h2, h3⟩
  | cons w rest ih =>
    intro t h1 h2 h3
    obtain ⟨g1, g2, g3⟩ := set_storage_preserves_tracking s t w.1 w.2.1 w.2.2 h1 h2 h3
    exact ih (t.set_storage w.1 w.2.1 w.2.2) g1 g2 g3

/-- C6: starting from a storage whose original-value map is empty (as after
`commit` or `revert`), any sequence `W` of `set_storage` writes followed by
`Storage::revert` yields a storage that reads equal to the pre-`W` storage on
every `(address, key)` slot. -/
theorem revert_restores_pre_write_reads (s : Storage)
    (wlist : List (Addr × Nat × Nat)) (h : s.originalStorage = [])
    (a : Addr) (k : Nat) :
    ((applyWrites s wlist).revert).get_storage a k = s.get_storage a k := by
  have base1 : ∀ a' k' o, s.originalStorage.lookup (a', k') = some o →
      s.get_storage a' k' = o := by
    intro a' k' o hlk
    rw [h] at hlk
    simp [List.lookup] at hlk
  have base2 : ∀ a' k', s.originalStorage.lookup (a', k') = none →
      s.get_storage a' k' = s.get_storage a' k' := fun _ _ _ => rfl
  have base3 : (s.originalStorage.map Prod.fst).Nodup := by
    rw [h]
    exact List.nodup_nil
  obtain ⟨h1, h2, h3⟩ := applyWrites_tracking s wlist s base1 base2 base3
  have hrev : ((applyWrites s wlist).revert).get_storage a k =
      readCS ((applyWrites s wlist).originalStorage.foldl revertEntry
        (applyWrites s wlist).contractStorage) a k := rfl
  rw [hrev, readCS_revert_fold _ _ _ _ h3]
  cases hlk : (applyWrites s wlist).originalStorage.lookup (a, k) with
  | some o =>
    simpa using (h1 a k o hlk).symm
  | none =>
    simp only [Option.getD_none]
    rw [← get_storage_readCS]
    exact h2 a k hlk

/-- C6 witness: `revert_restores_pre_write_reads` on the pre-state with slot
`(0, 1) = 7` and empty tracking, under the writes
`[(0,1,42), (0,1,99), (2,5,8)]`. -/
theorem revert_restores_pre_write_reads_witness :
    preWriteStorage.originalStorage = [] ∧
    ((applyWrites preWriteStorage [(0, 1, 42), (0, 1, 99), (2, 5, 8)]).revert).get_storage 0 1 =
      preWriteStorage.get_storage 0 1 ∧
    preWriteStorage.get_storage 0 1 = 7 :=
  ⟨rfl,
   revert_restores_pre_write_reads preWriteStorage [(0, 1, 42), (0, 1, 99), (2, 5, 8)] rfl 0 1,
   by decide⟩

/-! ### Fixed zero-address storage access (C10) -/

/-- C10: `Storage::get` and `Storage::set` operate on the fixed all-zero
address regardless of any context: `get(key)` equals
`get_storage([0;20], key)`, `set(key, v)` is exactly
`set_storage([0;20], key, v)` and touches no other address; and the
interpreter's SLOAD and SSTORE dispatch branches read and write through
them — for any core, hence for any `env.contract_address` — so two
executions of the same bytecode under different contract addresses observe
and mutate the same storage slots. -/
theorem storage_fixed_zero_address :
    (∀ (s : Storage) (key : Nat),
      s.get key = .ok (s.get_storage zeroAddr key)) ∧
    (∀ (s : Storage) (key value : Nat),
      s.set key value = (.ok (), s.set_storage zeroAddr key value)) ∧
    (∀ (s : Storage) (key value : Nat) (a : Addr) (k : Nat), a ≠ zeroAddr →
      (s.set key value).2.get_storage a k = s.get_storage a k) ∧
    (∀ (bytecode : List Nat) (core : RvmCore) (k : Nat) (rest : List Nat),
      core.stack = k :: rest → rest.length < MAX_STACK_SIZE →
      core.execute_opcode .SLOAD bytecode =
        (.ok true, { core with
                     stack := core.storage.get_storage zeroAddr k :: rest,
                     pc := core.pc + 1 })) ∧
    (∀ (bytecode : List Nat) (core : RvmCore) (k v : Nat) (rest : List Nat),
      core.stack = k :: v :: rest →
      core.execute_opcode .SSTORE bytecode =
        (.ok true, { core with
                     stack := rest,
                     storage := core.storage.set_storage zeroAddr k v,
                     pc := core.pc + 1 })) := by
  refine ⟨fun s key => rfl, fun s key value => rfl, ?_, ?_, ?_⟩
  · intro s key value a k ha
    have hset : (s.set key value).2 = s.set_storage zeroAddr key value := rfl
    rw [hset, get_storage_set_storage,
      if_neg (fun hand => ha hand.1)]
  · intro bytecode core k rest hst hlen
    simp only [RvmCore.execute_opcode, RvmCore.stack_pop, hst, RvmCore.stack_push,
      Storage.get]
    rw [if_neg (Nat.not_le.mpr hlen)]
    rfl
  · intro bytecode core k v rest hst
    simp only [RvmCore.execute_opcode, RvmCore.stack_pop, hst, Storage.set]
    rfl

/-- C10 witness: `storage_fixed_zero_address` exercised on concrete data:
a `set` leaves address `3` untouched, `sloadCore` (contract address `9`)
loads slot `(0,1) = 7`, and `sstoreCore` writes slot `(0,1)` of the zero
address. -/
theorem storage_fixed_zero_address_witness :
    ((Storage.new.set 5 9).2.get_storage 3 5 = Storage.new.get_storage 3 5) ∧
    (sloadCore.execute_opcode .SLOAD [] = (.ok true, { sloadCore with stack := [7], pc := 1 })) ∧
    (sstoreCore.execute_opcode .SSTORE [] =
      (.ok true, { sstoreCore with
                   stack := [],
                   storage := sstoreCore.storage.set_storage zeroAddr 1 42, pc := 1 })) := by
  have h := storage_fixed_zero_address
  refine ⟨h.2.2.1 Storage.new 5 9 3 5 (by decide), ?_, ?_⟩
  · have h4 := h.2.2.2.1 [] sloadCore 1 [] rfl (by decide)
    rw [h4]
    rfl
  · have h5 := h.2.2.2.2 [] sstoreCore 1 42 [] rfl
    rw [h5]
    rfl


/-! ### Precompile dispatch (C9) -/

/-- C9: for every oracle whose Keccak256 returns 32 bytes and every input,
`Precompiles::execute(1, input)` (ECRECOVER) never returns an error: a
non-128-byte input, a `v` word not ending in 27 or 28, or a failed key
recovery all yield the 32-byte all-zero vector, and a successful recovery
yields 32 bytes that are 12 zero bytes followed by the 20-byte recovered
address `keccak256(pk)[12..]`; and `Precompiles::execute(a, input)` for `a`
outside `1..=4` fails with `InvalidPrecompile(a)`. -/
theorem precompile_execute_spec (o : CryptoOracle)
    (hk : ∀ d, (o.keccak256 d).length = 32) :
    (∀ input : List Nat, ∃ out, Precompiles.execute o 1 input = .ok out) ∧
    (∀ input : List Nat, input.length ≠ 128 →
      Precompiles.execute o 1 input = .ok (List.replicate 32 0)) ∧
    (∀ input : List Nat, input.length = 128 →
      ¬(27 ≤ ((input.drop 32).take 32).getD 31 0 ∧
        ((input.drop 32).take 32).getD 31 0 ≤ 28) →
      Precompiles.execute o 1 input = .ok (List.replicate 32 0)) ∧
    (∀ (input : List Nat) (e : RvmError), input.length = 128 →
      (27 ≤ ((input.drop 32).take 32).getD 31 0 ∧
        ((input.drop 32).take 32).getD 31 0 ≤ 28) →
      o.recoverKey (input.take 32) ((input.drop 64).take 32 ++ (input.drop 96).take 32)
        (((input.drop 32).take 32).getD 31 0 - 27) = .error e →
      Precompiles.execute o 1 input = .ok (List.replicate 32 0)) ∧
    (∀ (input : List Nat) (pk : List Nat), input.length = 128 →
      (27 ≤ ((input.drop 32).take 32).getD 31 0 ∧
        ((input.drop 32).take 32).getD 31 0 ≤ 28) →
      o.recoverKey (input.take 32) ((input.drop 64).take 32 ++ (input.drop 96).take 32)
        (((input.drop 32).take 32).getD 31 0 - 27) = .ok pk →
      Precompiles.execute o 1 input =
        .ok (List.replicate 12 0 ++ public_key_to_address o pk) ∧
      (List.replicate 12 0 ++ public_key_to_address o pk).length = 32 ∧
      (List.replicate 12 0 ++ public_key_to_address o pk).take 12 = List.replicate 12 0 ∧
      (List.replicate 12 0 ++ public_key_to_address o pk).drop 12 =
        public_key_to_address o pk) ∧
    (∀ (a : Nat) (input : List Nat), ¬(1 ≤ a ∧ a ≤ 4) →
      Precompiles.execute o a input = .error (.InvalidPrecompile a)) := by
  have hexec : ∀ input : List Nat,
      Precompiles.execute o 1 input = Precompiles.ecrecover o input := fun _ => rfl
  have haddr : ∀ pk, (public_key_to_address o pk).length = 20 := by
    intro pk
    unfold public_key_to_address
    rw [List.length_drop, hk pk]
  refine ⟨?_, ?_, ?_, ?_, ?_, ?_⟩
  · intro input
    rw [hexec]
    simp only [Precompiles.ecrecover]
    by_cases hlen : input.length ≠ 128
    · rw [if_pos hlen]
      exact ⟨_, rfl⟩
    · rw [if_neg hlen]
      by_cases hv : 27 ≤ ((input.drop 32).take 32).getD 31 0 ∧
          ((input.drop 32).take 32).getD 31 0 ≤ 28
      · rw [if_pos hv]
        cases hr : o.recoverKey (input.take 32)
            ((input.drop 64).take 32 ++ (input.drop 96).take 32)
            (((input.drop 32).take 32).getD 31 0 - 27) with
        | ok pk => exact ⟨_, rfl⟩
        | error e => exact ⟨_, rfl⟩
      · rw [if_neg hv]
        exact ⟨_, rfl⟩
  · intro input hlen
    rw [hexec]
    simp only [Precompiles.ecrecover]
    rw [if_pos hlen]
  · intro input hlen hv
    rw [hexec]
    simp only [Precompiles.ecrecover]
    rw [if_neg (fun hne => hne hlen), if_neg hv]
  · intro input e hlen hv hr
    rw [hexec]
    simp only [Precompiles.ecrecover]
    rw [if_neg (fun hne => hne hlen), if_pos hv, hr]
  · intro input pk hlen hv hr
    refine ⟨?_, ?_, ?_, ?_⟩
    · rw [hexec]
      simp only [Precompiles.ecrecover]
      rw [if_neg (fun hne => hne hlen), if_pos hv, hr]
    · rw [List.length_append, List.length_replicate, haddr pk]
    · rw [List.take_append_of_le_length (by simp)]
      simp
    · rw [List.drop_append_of_le_length (by simp)]
      simp
  · intro a input ha
    have h1 : a ≠ 1 := by omega
    have h2 : a ≠ 2 := by omega
    have h3 : a ≠ 3 := by omega
    have h4 : a ≠ 4 := by omega
    simp only [Precompiles.execute]
    rw [if_neg h1, if_neg h2, if_neg h3, if_neg h4]

/-- C9 witness: `precompile_execute_spec` on the trivial oracle: the empty
input (length 0, not 128) yields 32 zero bytes, and address 7 fails with
`InvalidPrecompile(7)`. -/
theorem precompile_execute_spec_witness :
    Precompiles.execute zeroOracle 1 [] = .ok (List.replicate 32 0) ∧
    Precompiles.execute zeroOracle 7 [] = .error (.InvalidPrecompile 7) := by
  have h := precompile_execute_spec zeroOracle (fun d => by simp [zeroOracle])
  exact ⟨h.2.1 [] (by decide), h.2.2.2.2.2 7 [] (by decide)⟩


/-! ### PUSH dispatch (C2) -/

/-- `push32Value` is the 8-iteration accumulator. -/
theorem push32Value_eq_acc (bytecode : List Nat) (pc : Nat) :
    push32Value bytecode pc = push32Partial bytecode pc 8 := rfl

/-- Every `getD`-read of a byte list is a byte. -/
theorem getD_lt_256 (l : List Nat) (h : ∀ b ∈ l, b < 256) :
    ∀ i, l.getD i 0 < 256 := by
  intro i
  by_cases hi : i < l.length
  · rw [List.getD_eq_getElem l 0 hi]
    exact h _ (List.getElem_mem hi)
  · rw [List.getD_eq_default l 0 (Nat.le_of_not_lt hi)]
    decide

/-- The partial accumulator stays below `256^n`. -/
theorem push32Partial_lt (bytecode : List Nat) (pc : Nat)
    (hb : ∀ i, bytecode.getD i 0 < 256) :
    ∀ n, push32Partial bytecode pc n < 256 ^ n := by
  intro n
  induction n with
  | zero => simp [push32Partial]
  | succ n ih =>
    unfold push32Partial
    rw [List.range_succ, List.foldl_append, List.foldl_cons, List.foldl_nil]
    by_cases hc : pc + (n + 1) < bytecode.length
    · rw [if_pos hc]
      have hm : (push32Partial bytecode pc n * 256) % U64 ≤
          push32Partial bytecode pc n * 256 := Nat.mod_le _ _
      have hbn := hb (pc + (n + 1))
      have hpow : (256 : Nat) ^ (n + 1) = 256 ^ n * 256 := pow_succ 256 n
      unfold push32Partial at hm ih
      omega
    · rw [if_neg hc]
      have hpow : (256 : Nat) ^ n ≤ 256 ^ (n + 1) :=
        Nat.pow_le_pow_right (by norm_num) (by omega)
      unfold push32Partial at ih
      omega

/-- The accumulator recurrence: within bounds each of the 8 iterations
shifts by one byte and adds the next operand byte (no `u64` wrap occurs
since the value stays below `256^8 = 2^64`). -/
theorem push32Partial_succ (bytecode : List Nat) (pc n : Nat)
    (hlen : pc + 8 < bytecode.length) (hb : ∀ i, bytecode.getD i 0 < 256)
    (hn : n < 8) :
    push32Partial bytecode pc (n + 1) =
      push32Partial bytecode pc n * 256 + bytecode.getD (pc + (n + 1)) 0 := by
  unfold push32Partial
  rw [List.range_succ, List.foldl_append, List.foldl_cons, List.foldl_nil]
  rw [if_pos (by omega)]
  congr 1
  apply Nat.mod_eq_of_lt
  have hv := push32Partial_lt bytecode pc hb n
  unfold push32Partial at hv
  have h1 : (256 : Nat) ^ (n + 1) = 256 ^ n * 256 := pow_succ 256 n
  have h2 : (256 : Nat) ^ (n + 1) ≤ 256 ^ 8 :=
    Nat.pow_le_pow_right (by norm_num) (by omega)
  have h3 : (256 : Nat) ^ 8 = U64 := by decide
  omega

/-- C2 counterexample: dispatching PUSH2 on `61 05 00` does not read the two
operand bytes: the stack is untouched and `pc` advances by 1 (the opcode
falls into the catch-all no-op branch), not by 3 with `0x0500 = 1280`
pushed. -/
theorem push2_noop_counterexample :
    ((RvmCore.new 1000).execute_opcode .PUSH2 [97, 5, 0]).1 = .ok true ∧
    ((RvmCore.new 1000).execute_opcode .PUSH2 [97, 5, 0]).2.stack = [] ∧
    ((RvmCore.new 1000).execute_opcode .PUSH2 [97, 5, 0]).2.pc = 1 ∧
    ¬(((RvmCore.new 1000).execute_opcode .PUSH2 [97, 5, 0]).2.stack = [1280] ∧
      ((RvmCore.new 1000).execute_opcode .PUSH2 [97, 5, 0]).2.pc = 3) := by
  refine ⟨rfl, rfl, rfl, ?_⟩
  intro hand
  exact absurd hand.1 (by decide)

/-- C2 (amended): only PUSH1 and PUSH32 are dispatched.  PUSH1 reads the next
byte, pushes it and advances `pc` by 2, failing `InvalidBytecode` (with `pc`
already advanced past the opcode) when no operand byte remains.  PUSH2
through PUSH31 fall into the catch-all branch: nothing is read or pushed and
`pc` advances by 1.  PUSH32 fails `InvalidBytecode` when fewer than 32
operand bytes remain, and otherwise pushes the big-endian value of only the
FIRST 8 of its 32 operand bytes, advancing `pc` by 33. -/
theorem push_dispatch_spec :
    (∀ (bytecode : List Nat) (core : RvmCore),
      core.pc + 1 < bytecode.length → core.stack.length < MAX_STACK_SIZE →
      core.execute_opcode .PUSH1 bytecode =
        (.ok true, { core with
                     stack := bytecode.getD (core.pc + 1) 0 :: core.stack,
                     pc := core.pc + 2 })) ∧
    (∀ (bytecode : List Nat) (core : RvmCore),
      bytecode.length ≤ core.pc + 1 →
      core.execute_opcode .PUSH1 bytecode =
        (.error (.InvalidBytecode "PUSH1 without data"),
          { core with pc := core.pc + 1 })) ∧
    (∀ (op : Opcode) (bytecode : List Nat) (core : RvmCore),
      op.is_push = true → 2 ≤ op.push_bytes → op.push_bytes ≤ 31 →
      core.execute_opcode op bytecode = (.ok true, { core with pc := core.pc + 1 })) ∧
    (∀ (bytecode : List Nat) (core : RvmCore),
      bytecode.length ≤ core.pc + 32 →
      core.execute_opcode .PUSH32 bytecode =
        (.error (.InvalidBytecode "PUSH32 without enough data"), core)) ∧
    (∀ (bytecode : List Nat) (core : RvmCore),
      core.pc + 32 < bytecode.length → core.stack.length < MAX_STACK_SIZE →
      core.execute_opcode .PUSH32 bytecode =
        (.ok true, { core with
                     stack := push32Value bytecode core.pc :: core.stack,
                     pc := core.pc + 33 })) ∧
    (∀ (bytecode : List Nat) (pc : Nat),
      pc + 8 < bytecode.length → (∀ i, bytecode.getD i 0 < 256) →
      push32Value bytecode pc =
        ((((((bytecode.getD (pc + 1) 0 * 256 + bytecode.getD (pc + 2) 0) * 256 +
              bytecode.getD (pc + 3) 0) * 256 + bytecode.getD (pc + 4) 0) * 256 +
              bytecode.getD (pc + 5) 0) * 256 + bytecode.getD (pc + 6) 0) * 256 +
              bytecode.getD (pc + 7) 0) * 256 + bytecode.getD (pc + 8) 0) := by
  refine ⟨?_, ?_, ?_, ?_, ?_, ?_⟩
  · intro bytecode core hlt hstack
    simp only [RvmCore.execute_opcode, RvmCore.stack_push]
    rw [if_neg (by simp; omega), if_neg (by simp; omega)]
  · intro bytecode core hge
    simp only [RvmCore.execute_opcode]
    rw [if_pos (by simp; omega)]
  · intro op bytecode core hp h2 h31
    cases op <;>
      first
        | rfl
        | exact absurd hp (by decide)
        | exact absurd h2 (by decide)
        | exact absurd h31 (by decide)
  · intro bytecode core hge
    simp only [RvmCore.execute_opcode]
    rw [if_pos (by omega)]
  · intro bytecode core hlt hstack
    simp only [RvmCore.execute_opcode, RvmCore.stack_push]
    rw [if_neg (by omega), if_neg (by simp; omega)]
  · intro bytecode pc hlen hb
    have e1 := push32Partial_succ bytecode pc 0 hlen hb (by omega)
    have e2 := push32Partial_succ bytecode pc 1 hlen hb (by omega)
    have e3 := push32Partial_succ bytecode pc 2 hlen hb (by omega)
    have e4 := push32Partial_succ bytecode pc 3 hlen hb (by omega)
    have e5 := push32Partial_succ bytecode pc 4 hlen hb (by omega)
    have e6 := push32Partial_succ bytecode pc 5 hlen hb (by omega)
    have e7 := push32Partial_succ bytecode pc 6 hlen hb (by omega)
    have e8 := push32Partial_succ bytecode pc 7 hlen hb (by omega)
    have e0 : push32Partial bytecode pc 0 = 0 := rfl
    rw [push32Value_eq_acc, e8, e7, e6, e5, e4, e3, e2, e1, e0]
    ring

/-- C2 witness: `push_dispatch_spec` on concrete inputs: PUSH1 pushes the
operand `10`; PUSH5 is a `pc`-advance no-op; the PUSH32 operand value of
bytes `01..08` is `0x0102030405060708`. -/
theorem push_dispatch_spec_witness :
    (RvmCore.new 50).execute_opcode .PUSH1 [96, 10, 0] =
      (.ok true, { RvmCore.new 50 with stack := [10], pc := 2 }) ∧
    (RvmCore.new 50).execute_opcode .PUSH5 [100, 1, 2] =
      (.ok true, { RvmCore.new 50 with pc := 1 }) ∧
    push32Value [127, 1, 2, 3, 4, 5, 6, 7, 8, 9] 0 = 72623859790382856 := by
  refine ⟨?_, ?_, ?_⟩
  · have h := push_dispatch_spec.1 [96, 10, 0] (RvmCore.new 50) (by decide) (by decide)
    rw [h]
    rfl
  · exact push_dispatch_spec.2.2.1 .PUSH5 [100, 1, 2] (RvmCore.new 50)
      (by decide) (by decide) (by decide)
  · have h := push_dispatch_spec.2.2.2.2.2 [127, 1, 2, 3, 4, 5, 6, 7, 8, 9] 0
      (by decide) (getD_lt_256 _ (by decide))
    rw [h]
    decide


/-! ### Invalid opcode propagation (C3) -/

/-- C3 counterexample: executing the single unassigned byte `0x0c`, `execute`
returns `Err(InvalidOpcode(0x0c))` — the `?` on `Opcode::from_byte` — and in
particular does not return a failure `ExecutionResult` as its success value. -/
theorem invalid_opcode_returns_err_counterexample :
    (RvmCore.new 1000).execute [12] ExecutionEnvironment.default 1 =
      some (.error (.InvalidOpcode 12)) ∧
    Option.map (fun x => match x with | .ok _ => true | .error _ => false)
        ((RvmCore.new 1000).execute [12] ExecutionEnvironment.default 1) =
      some false :=
  ⟨rfl, rfl⟩

/-- C3 (amended): when the byte at the current program counter is not a valid
opcode encoding, the execution loop returns `Err(RvmError::InvalidOpcode(byte))`
— propagated by `?` out of `RvmCore::execute` as the `Result`'s error, not
converted into a failure `ExecutionResult`; the gas meter is left at the gas
consumed before this iteration (decode happens before the base charge). -/
theorem invalid_opcode_propagates_as_err (bytecode : List Nat) (core : RvmCore)
    (fuel : Nat) (hpc : core.pc < bytecode.length)
    (hdec : Opcode.from_byte (bytecode.getD core.pc 0) =
      .error (.InvalidOpcode (bytecode.getD core.pc 0))) :
    execLoop bytecode (fuel + 1) core =
      some (.error (.InvalidOpcode (bytecode.getD core.pc 0))) := by
  simp only [execLoop]
  rw [if_pos hpc]
  simp only [hdec]

/-- C3 witness: `invalid_opcode_propagates_as_err` on the bytecode `[0x0c]`. -/
theorem invalid_opcode_propagates_as_err_witness :
    execLoop [12] 1 (RvmCore.new 1000) = some (.error (.InvalidOpcode 12)) :=
  invalid_opcode_propagates_as_err [12] (RvmCore.new 1000) 0 (by decide) rfl

/-! ### Non-termination at `u64::MAX` gas limit (C1) -/

/-- One continuing iteration of the execution loop, assembled from the
decode, base-charge and dispatch results. -/
theorem execLoop_step_continue (bytecode : List Nat) (fuel : Nat)
    (core : RvmCore) (op : Opcode) (gas1 : GasMeter) (core2 : RvmCore)
    (hpc : core.pc < bytecode.length)
    (hdec : Opcode.from_byte (bytecode.getD core.pc 0) = .ok op)
    (hcons : core.gas.consume op.gas_cost = (.ok (), gas1))
    (hexec : RvmCore.execute_opcode { core with gas := gas1 } op bytecode =
      (.ok true, core2)) :
    execLoop bytecode (fuel + 1) core = execLoop bytecode fuel core2 := by
  simp only [execLoop]
  rw [if_pos hpc]
  simp only [hdec, hcons, hexec]

/-- With `limit = u64::MAX`, `consume` can never fail: the wrapped sum is a
`u64` and `u64 ≤ u64::MAX` always holds. -/
theorem consume_at_max_never_fails (u amount : Nat) :
    GasMeter.consume { limit := U64 - 1, used := u, refunded := 0 } amount =
      (.ok (), { limit := U64 - 1, used := wadd u amount, refunded := 0 }) := by
  have hm : wadd u amount < U64 := Nat.mod_lt _ (by decide)
  unfold GasMeter.consume
  rw [if_neg (by simp only [gt_iff_lt]; omega)]

/-- PUSH1 step: from offset 0 the loop pushes `0`, charges 3 gas
(wrapping), and continues at offset 2. -/
theorem loop_stepA (fuel u : Nat) :
    execLoop loopBytecode (fuel + 1) (loopStateA u) =
      execLoop loopBytecode fuel (loopStateB (wadd u 3)) := by
  refine execLoop_step_continue loopBytecode fuel (loopStateA u) .PUSH1
    { limit := U64 - 1, used := wadd u 3, refunded := 0 } (loopStateB (wadd u 3))
    (by show (0 : Nat) < 3; decide) rfl ?_ rfl
  exact consume_at_max_never_fails u 3

/-- JUMP step: from offset 2 the loop pops `0`, charges 8 gas (wrapping),
and jumps back to offset 0. -/
theorem loop_stepB (fuel u : Nat) :
    execLoop loopBytecode (fuel + 1) (loopStateB u) =
      execLoop loopBytecode fuel (loopStateA (wadd u 8)) := by
  refine execLoop_step_continue loopBytecode fuel (loopStateB u) .JUMP
    { limit := U64 - 1, used := wadd u 8, refunded := 0 } (loopStateA (wadd u 8))
    (by show (2 : Nat) < 3; decide) rfl ?_ rfl
  exact consume_at_max_never_fails u 8

/-- Neither loop state ever leaves the loop, whatever the fuel. -/
theorem loop_never_returns :
    ∀ fuel u, execLoop loopBytecode fuel (loopStateA u) = none ∧
      execLoop loopBytecode fuel (loopStateB u) = none := by
  intro fuel
  induction fuel with
  | zero => intro u; exact ⟨rfl, rfl⟩
  | succ fuel ih =>
    intro u
    refine ⟨?_, ?_⟩
    · rw [loop_stepA]
      exact (ih (wadd u 3)).2
    · rw [loop_stepB]
      exact (ih (wadd u 8)).1

/-- C1: at `gas_limit = u64::MAX = 2^64 - 1`, `RvmCore::execute` on the
bytecode `PUSH1 0; JUMP` never terminates: the `u64` check
`used + amount > limit` in `GasMeter::consume` can never be true, so the gas
meter never runs out (`used` wraps around forever) and the loop never exits —
after any number of iterations the loop is still running.  This contradicts
the claim (and gas.rs's own "prevents infinite loops" documentation); with
overflow checks enabled the same input instead panics on `used + amount`. -/
theorem execute_diverges_at_max_gas_limit :
    ∀ fuel, (RvmCore.new (U64 - 1)).execute loopBytecode
      ExecutionEnvironment.default fuel = none := by
  intro fuel
  show execLoop loopBytecode fuel (loopStateA 0) = none
  exact (loop_never_returns fuel 0).1

end Rvm
